import Mathlib

/-!
Shallow embedding of the `logger` Go package (files `logger.go` and the
richer unnamed variant of the same package, which adds `Priority`,
`SetPriority`, `SetOutput` and the `std` singleton).

Conventions of the embedding:
* Go `int` values in this package are always small and non-negative
  (levels 0..16, masks below 2^17), so they are modelled as `Nat`;
  where 32-bit two's-complement arithmetic matters (the `Priority`
  getter casts to `int32`), the embedding works modulo 2^32 explicitly.
* The underlying `log.Logger` sink is an external collaborator: a method
  that writes a line is modelled as returning the rendered line (or
  `none` when the call is filtered out); process exit and `panic` are
  modelled as explicit events.
* Go's `fmt.Sprintf` is external; it is modelled as standard positional
  substitution: each `%` verb consumes the next argument's rendering,
  `%%` is a literal percent.  Arguments are modelled as their rendered
  strings.
-/

namespace LoggerGo

/-! ### Level and facility constants (`type Level int`, `type Facility int`) -/

def LOG_EMERG : Nat := 0
def LOG_ALERT : Nat := 1
def LOG_CRIT : Nat := 2
def LOG_ERR : Nat := 3
def LOG_WARNING : Nat := 4
def LOG_NOTICE : Nat := 5
def LOG_INFO : Nat := 6
def LOG_DEBUG : Nat := 7

def LOG_PRIMASK : Nat := 0x07
def INTERNAL_NOPRI : Nat := 0x10
def LOG_NFACILITIES : Nat := 24
def INTERNAL_MARK : Nat := (LOG_NFACILITIES <<< 3) ||| 0

def LOG_KERN : Nat := 0 <<< 3
def LOG_USER : Nat := 1 <<< 3
def LOG_MAIL : Nat := 2 <<< 3
def LOG_DAEMON : Nat := 3 <<< 3
def LOG_AUTH : Nat := 4 <<< 3
def LOG_SYSLOG : Nat := 5 <<< 3
def LOG_LPR : Nat := 6 <<< 3
def LOG_NEWS : Nat := 7 <<< 3
def LOG_UUCP : Nat := 8 <<< 3
def LOG_CRON : Nat := 9 <<< 3
def LOG_AUTHPRIV : Nat := 10 <<< 3
def LOG_FTP : Nat := 11 <<< 3
def LOG_LOCAL0 : Nat := 16 <<< 3
def LOG_LOCAL1 : Nat := 17 <<< 3
def LOG_LOCAL2 : Nat := 18 <<< 3
def LOG_LOCAL3 : Nat := 19 <<< 3
def LOG_LOCAL4 : Nat := 20 <<< 3
def LOG_LOCAL5 : Nat := 21 <<< 3
def LOG_LOCAL6 : Nat := 22 <<< 3
def LOG_LOCAL7 : Nat := 23 <<< 3

def LOG_FACMASK : Nat := 0x03f8

/-! ### Mask algebra (`LOG_PRI`, `LOG_MAKEPRI`, `LOG_FAC`, `LOG_MASK`, `LOG_UPTO`) -/

def LOG_PRI (p : Nat) : Nat := p &&& LOG_PRIMASK

def LOG_MAKEPRI (fac pri : Nat) : Nat := (fac <<< 3) ||| pri

def LOG_FAC (p : Nat) : Nat := (p &&& LOG_FACMASK) >>> 3

def LOG_MASK (pri : Nat) : Nat := 1 <<< pri

def LOG_UPTO (pri : Nat) : Nat := (1 <<< (pri + 1)) - 1

/-! ### Name tables (`var Levels`, `var Facilities`)

The Go maps are modelled as association lists in the source's literal
order.  Map iteration order in Go is unspecified, but both tables have
pairwise-distinct value strings, so every lookup-by-value below is
order-independent. -/

def Levels : List (Nat × String) :=
  [(LOG_ALERT, "alert"), (LOG_CRIT, "crit"), (LOG_DEBUG, "debug"),
   (LOG_EMERG, "emerg"), (LOG_ERR, "err"), (LOG_INFO, "info"),
   (INTERNAL_NOPRI, "none"), (LOG_NOTICE, "notice"), (LOG_WARNING, "warning")]

def Facilities : List (Nat × String) :=
  [(LOG_AUTH, "auth"), (LOG_AUTHPRIV, "authpriv"), (LOG_CRON, "cron"),
   (LOG_DAEMON, "daemon"), (LOG_FTP, "ftp"), (LOG_KERN, "kern"),
   (LOG_LPR, "lpr"), (LOG_MAIL, "mail"), (INTERNAL_MARK, "mark"),
   (LOG_NEWS, "news"), (LOG_SYSLOG, "syslog"), (LOG_USER, "user"),
   (LOG_UUCP, "uucp"), (LOG_LOCAL0, "local0"), (LOG_LOCAL1, "local1"),
   (LOG_LOCAL2, "local2"), (LOG_LOCAL3, "local3"), (LOG_LOCAL4, "local4"),
   (LOG_LOCAL5, "local5"), (LOG_LOCAL6, "local6"), (LOG_LOCAL7, "local7")]

/-- Go map read `Levels[prio]`; a missing key yields the zero value `""`. -/
def levelName (prio : Nat) : String :=
  ((Levels.find? (fun kv => kv.1 == prio)).map (fun kv => kv.2)).getD ("")

/-! ### Model of `fmt.Sprintf` (external collaborator)

Standard positional-argument substitution over characters: a `%`
followed by a verb character consumes the next argument and splices in
its rendered string (argument strings are spliced literally, never
re-scanned, as in Go); `%%` produces a literal `%`.  A verb with no
argument left and a trailing lone `%` are kept literally (Go would
decorate them with an error marker; no claim depends on that case). -/

def sprintfAux : List Char → List String → List Char
  | [], _ => []
  | c :: rest, args =>
    if c = ('%') then
      match rest, args with
      | [], _ => [c]
      | '%' :: rest2, _ => '%' :: sprintfAux rest2 args
      | _ :: rest2, a :: args2 => a.data ++ sprintfAux rest2 args2
      | c2 :: rest2, [] => '%' :: c2 :: sprintfAux rest2 []
    else c :: sprintfAux rest args

def sprintf (format : String) (args : List String) : String :=
  String.mk (sprintfAux format.data args)

/-- Model of Go `strings.ToLower` on the ASCII range (all level names and
all `GOLOGLEVEL` values matched against them are ASCII). -/
def toLowerChar (c : Char) : Char :=
  if ('A' ≤ c && c ≤ 'Z') then Char.ofNat (c.toNat + 32) else c

def strToLower (s : String) : String := String.mk (s.data.map toLowerChar)

/-! ### The `Logger` instance

`type Logger struct { logger *log.Logger; upto int }`.  The wrapped
`*log.Logger` sink is external (it only carries prefix/flags/output,
none of which the filtering logic reads), so the model keeps only the
mask.  Each severity method returns the rendered line it hands to the
sink, or `none` when the call is filtered out. -/

structure Logger where
  upto : Nat

/-- Constructor `NewLogger(out, prefix, flag, priority)`; sink arguments are held by
the external `log.Logger` and omitted from the state. -/
def NewLogger (priority : Nat) : Logger := ⟨LOG_UPTO priority⟩

/-- Setter `SetPriority` of the unnamed file; `SetLevel` in `logger.go` has the
identical body `l.upto = LOG_UPTO(priority)`. -/
def Logger.SetPriority (l : Logger) (priority : Nat) : Logger :=
  { l with upto := LOG_UPTO priority }

/-- Arithmetic right shift of a 32-bit value (Go `>>` on `int32`), on the
two's-complement bit pattern held as a `Nat` below `2^32`. -/
def sar32 (b k : Nat) : Nat :=
  ((b + (if 2 ^ 31 ≤ b then 2 ^ 64 - 2 ^ 32 else 0)) >>> k) % 2 ^ 32

/-- Getter `Logger.Priority` of the unnamed file: trailing-ones count of the
mask via the Stanford bit trick, computed in `int32`.  `l.upto` is
non-negative and below `2^63`, so `^l.upto` as a 64-bit pattern is
`2^64 - 1 - l.upto`, and the `int32` cast keeps the low 32 bits. -/
def Logger.Priority (l : Logger) : Nat :=
  let b := ((2 ^ 64 - 1 - l.upto) &&& ((l.upto + 1) % 2 ^ 64)) % 2 ^ 32
  let b := (b + (2 ^ 32 - 1)) % 2 ^ 32
  let b := ((b &&& 0x55555555) + (sar32 b 1 &&& 0x55555555)) % 2 ^ 32
  let b := ((b &&& 0x33333333) + (sar32 b 2 &&& 0x33333333)) % 2 ^ 32
  let b := ((b &&& 0x0f0f0f0f) + (sar32 b 4 &&& 0x0f0f0f0f)) % 2 ^ 32
  let b := ((b &&& 0x00ff00ff) + (sar32 b 8 &&& 0x00ff00ff)) % 2 ^ 32
  let b := ((b &&& 0x0000ffff) + (sar32 b 16 &&& 0x0000ffff)) % 2 ^ 32
  b

/-- A severity method's observable effect on the sink and the runtime. -/
inductive Event where
  | write (line : String)
  | raiseErr (payload : String)
  | exitProc (code : Nat)
  deriving DecidableEq, Repr

/-- Method `Logger.printf`: the rendered line handed to the sink
(`fmt.Sprintf(fmt.Sprintf("[%s] %s", Levels[prio], format), v...)`;
`logger.go` hands the same string to `Printf`, the unnamed file to
`Output(3, ...)` — the call-depth argument is sink metadata). -/
def Logger.printf (_l : Logger) (format : String) (prio : Nat)
    (args : List String) : String :=
  sprintf (sprintf ("[%s] %s") [levelName prio, format]) args

def Logger.Emerg (l : Logger) (format : String) (args : List String) : Option String :=
  if l.upto &&& LOG_MASK LOG_EMERG ≠ 0 then some (l.printf format LOG_EMERG args) else none

def Logger.Alert (l : Logger) (format : String) (args : List String) : Option String :=
  if l.upto &&& LOG_MASK LOG_ALERT ≠ 0 then some (l.printf format LOG_ALERT args) else none

def Logger.Crit (l : Logger) (format : String) (args : List String) : Option String :=
  if l.upto &&& LOG_MASK LOG_CRIT ≠ 0 then some (l.printf format LOG_CRIT args) else none

def Logger.Error (l : Logger) (format : String) (args : List String) : Option String :=
  if l.upto &&& LOG_MASK LOG_ERR ≠ 0 then some (l.printf format LOG_ERR args) else none

def Logger.Warning (l : Logger) (format : String) (args : List String) : Option String :=
  if l.upto &&& LOG_MASK LOG_WARNING ≠ 0 then some (l.printf format LOG_WARNING args) else none

def Logger.Notice (l : Logger) (format : String) (args : List String) : Option String :=
  if l.upto &&& LOG_MASK LOG_NOTICE ≠ 0 then some (l.printf format LOG_NOTICE args) else none

def Logger.Info (l : Logger) (format : String) (args : List String) : Option String :=
  if l.upto &&& LOG_MASK LOG_INFO ≠ 0 then some (l.printf format LOG_INFO args) else none

def Logger.Debug (l : Logger) (format : String) (args : List String) : Option String :=
  if l.upto &&& LOG_MASK LOG_DEBUG ≠ 0 then some (l.printf format LOG_DEBUG args) else none

/-- Dispatch to the severity method with the given level; the eight
bodies above are uniform in the level, this is the indexed view. -/
def Logger.emit (l : Logger) (sev : Fin 8) (format : String)
    (args : List String) : Option String :=
  match sev with
  | 0 => l.Emerg format args
  | 1 => l.Alert format args
  | 2 => l.Crit format args
  | 3 => l.Error format args
  | 4 => l.Warning format args
  | 5 => l.Notice format args
  | 6 => l.Info format args
  | 7 => l.Debug format args

/-- Method `Logger.Panic`: `s := fmt.Sprintf("[panic] " + format, v...);
l.logger.Output(3, s); panic(s)` — the write precedes the raise and
both carry the same string. -/
def Logger.Panic (_l : Logger) (format : String) (args : List String) : List Event :=
  let s := sprintf ("[panic] " ++ format) args
  [Event.write s, Event.raiseErr s]

/-- Method `Logger.Fatal`: `l.logger.Output(3, fmt.Sprintf("[fatal] " + format, v...));
os.Exit(1)`. -/
def Logger.Fatal (_l : Logger) (format : String) (args : List String) : List Event :=
  [Event.write (sprintf ("[fatal] " ++ format) args), Event.exitProc 1]

/-! ### The package-level singleton

`var std = NewLogger(os.Stderr, "", log.LstdFlags, LOG_ERR)`; package
variables initialize before `init()` runs.  `init()` reads
`GOLOGLEVEL` (`os.Getenv` yields `""` when unset) and, on a
case-insensitive match against a `Levels` entry, calls `SetPriority`
with its key and breaks; the value strings are pairwise distinct, so
the map's random iteration order cannot change the outcome. -/

/-- The `Levels` entry whose name the lowercased `GOLOGLEVEL` value
matches, if any (list order; at most one entry can match). -/
def envMatch (golog : String) : Option (Nat × String) :=
  Levels.find? (fun kv => strToLower golog == kv.2)

/-- The singleton `std` as it stands after package initialization, as a
function of the `GOLOGLEVEL` value. -/
def stdAfterInit (golog : String) : Logger :=
  match envMatch golog with
  | some kv => (NewLogger LOG_ERR).SetPriority kv.1
  | none => NewLogger LOG_ERR

/-- The threshold level `init()` leaves configured: the matched
`Levels` key, or the `LOG_ERR` the singleton was constructed with. -/
def initThreshold (golog : String) : Nat :=
  match envMatch golog with
  | some kv => kv.1
  | none => LOG_ERR

/-- The logger states the package can produce, each paired with the
threshold level it was configured with: fresh construction, any chain
of `SetPriority` (= `SetLevel`) calls, and singleton environment
initialization. -/
inductive Configured : Logger → Nat → Prop where
  | new (p : Nat) : Configured (NewLogger p) p
  | set {l : Logger} {t : Nat} (p : Nat) :
      Configured l t → Configured (l.SetPriority p) p
  | env (golog : String) : Configured (stdAfterInit golog) (initThreshold golog)

/-- Package-level `SetOutput` of the unnamed file:
`std = NewLogger(out, Prefix(), Flags(), Priority())`.  Prefix, flags
and the new destination live in the external sink; the mask of the
replacement logger is rebuilt from `Priority()`. -/
def SetOutput (std : Logger) : Logger := NewLogger std.Priority

/-- Package-level `Panic`: same body as the method, against `std`'s sink. -/
def Panic (format : String) (args : List String) : List Event :=
  let s := sprintf ("[panic] " ++ format) args
  [Event.write s, Event.raiseErr s]

/-- Package-level `Fatal`. -/
def Fatal (format : String) (args : List String) : List Event :=
  [Event.write (sprintf ("[fatal] " ++ format) args), Event.exitProc 1]

/-! ### Helper lemmas -/

/-- A verb-free prefix of a format string passes through `sprintfAux`
unchanged and consumes no argument. -/
lemma sprintfAux_append (p : List Char) (h : ∀ c ∈ p, c ≠ ('%')) :
    ∀ rest args, sprintfAux (p ++ rest) args = p ++ sprintfAux rest args := by
  induction p with
  | nil => intro rest args; rfl
  | cons c p ih =>
    intro rest args
    have hc : c ≠ ('%') := h c (List.mem_cons_self c p)
    have ih2 := ih (fun d hd => h d (List.mem_cons_of_mem c hd)) rest args
    rw [List.cons_append, sprintfAux.eq_def]
    simp [if_neg hc, ih2]

/-- String form of `sprintfAux_append`. -/
lemma sprintf_append (p f : String) (args : List String)
    (h : ∀ c ∈ p.data, c ≠ ('%')) :
    sprintf (p ++ f) args = p ++ sprintf f args := by
  apply String.ext
  show (sprintfAux (p ++ f).data args) = (p ++ sprintf f args).data
  rw [String.data_append, sprintfAux_append p.data h f.data args,
    String.data_append]
  rfl

/-- Substituting the two strings of the tag template. -/
lemma sprintf_tag (n f : String) :
    sprintf ("[%s] %s") [n, f] = ("[") ++ n ++ ("] ") ++ f := by
  apply String.ext
  show '[' :: (n.data ++ (']' :: ' ' :: (f.data ++ []))) = _
  simp [String.data_append]

/-- The rendered line of `Logger.printf`, for a level whose name has no
format verb in it. -/
lemma Logger.printf_shape (l : Logger) (format : String) (prio : Nat)
    (args : List String) (h : ∀ c ∈ (levelName prio).data, c ≠ ('%')) :
    l.printf format prio args =
      ("[") ++ levelName prio ++ ("] ") ++ sprintf format args := by
  show sprintf (sprintf ("[%s] %s") [levelName prio, format]) args = _
  rw [sprintf_tag]
  have hpre : ∀ c ∈ (("[") ++ levelName prio ++ ("] ")).data, c ≠ ('%') := by
    intro c hc
    rw [String.data_append, String.data_append] at hc
    rcases List.mem_append.mp hc with hc' | hc'
    · rcases List.mem_append.mp hc' with hc'' | hc''
      · simp only [List.mem_singleton.mp hc'']; decide
      · exact h c hc''
    · intro e; subst e; revert hc'; decide
  calc sprintf (("[") ++ levelName prio ++ ("] ") ++ format) args
      = sprintf ((("[") ++ levelName prio ++ ("] ")) ++ format) args := by
        rw [String.append_assoc]
    _ = (("[") ++ levelName prio ++ ("] ")) ++ sprintf format args := by
        exact sprintf_append _ format args hpre

/-- No canonical level name of the eight severities contains a `%`. -/
lemma levelName_no_verb : ∀ sev : Fin 8, ∀ c ∈ (levelName sev.val).data, c ≠ ('%') := by
  decide

/-- The eight severity methods, seen through `Logger.emit`, share the
uniform filtered body. -/
lemma Logger.emit_eq (l : Logger) (sev : Fin 8) (format : String)
    (args : List String) :
    l.emit sev format args =
      if l.upto &&& LOG_MASK sev.val ≠ 0
      then some (l.printf format sev.val args) else none := by
  fin_cases sev <;> rfl

/-- The mask filter admits exactly the severities at or above the
threshold (numerically at or below it), for levels in range. -/
lemma upto_mask_filter : ∀ L S : Fin 8,
    (LOG_UPTO L.val &&& LOG_MASK S.val ≠ 0) ↔ S.val ≤ L.val := by
  decide

/-- A logger whose mask is `LOG_UPTO T` emits exactly the severities at
most `T`. -/
lemma emit_isSome_iff (l : Logger) (T : Fin 8) (hl : l.upto = LOG_UPTO T.val)
    (sev : Fin 8) (format : String) (args : List String) :
    ((l.emit sev format args).isSome = true) ↔ sev.val ≤ T.val := by
  rw [Logger.emit_eq, hl]
  by_cases hc : LOG_UPTO T.val &&& LOG_MASK sev.val ≠ 0
  · rw [if_pos hc]
    exact ⟨fun _ => (upto_mask_filter T sev).mp hc, fun _ => rfl⟩
  · rw [if_neg hc]
    exact ⟨fun h => by simp at h,
           fun hle => absurd ((upto_mask_filter T sev).mpr hle) hc⟩

/-! ### Claim theorems -/

/-- Claim C1: after `SetPriority(L)` (`SetLevel` in `logger.go`), an emit
call at severity `L` writes to the sink, one at severity `L+1` (when
`L < 7`) is a silent no-op, and one at any severity strictly below `L`
writes to the sink. -/
theorem C1_threshold_filter (l : Logger) (L : Fin 8) (format : String)
    (args : List String) :
    (((l.SetPriority L.val).emit L format args).isSome = true)
    ∧ (∀ hL : L.val < 7,
       (l.SetPriority L.val).emit ⟨L.val + 1, by omega⟩ format args = none)
    ∧ (∀ S : Fin 8, S.val < L.val →
       ((l.SetPriority L.val).emit S format args).isSome = true) := by
  have hupto : (l.SetPriority L.val).upto = LOG_UPTO L.val := rfl
  refine ⟨?_, ?_, ?_⟩
  · exact (emit_isSome_iff _ L hupto L format args).mpr (Nat.le_refl _)
  · intro hL
    rw [Logger.emit_eq, hupto, if_neg]
    intro hne
    have h2 : L.val + 1 ≤ L.val :=
      (upto_mask_filter L ⟨L.val + 1, by omega⟩).mp hne
    omega
  · intro S hS
    exact (emit_isSome_iff _ L hupto S format args).mpr (Nat.le_of_lt hS)

/-- Concrete instance of C1 at threshold 5: severity 6 is suppressed,
severity 2 is emitted. -/
theorem C1_witness :
    ((NewLogger LOG_ERR).SetPriority (5 : Fin 8).val).emit ⟨6, by omega⟩ ("m") [] = none
    ∧ (((NewLogger LOG_ERR).SetPriority (5 : Fin 8).val).emit ⟨2, by omega⟩ ("m") []).isSome = true :=
  ⟨(C1_threshold_filter (NewLogger LOG_ERR) 5 ("m") []).2.1 (by decide),
   (C1_threshold_filter (NewLogger LOG_ERR) 5 ("m") []).2.2 ⟨2, by omega⟩ (by decide)⟩

/-- Claim C2 is refuted by the code: the `Priority` getter counts the
trailing one-bits of the mask, which for `LOG_UPTO(L)` is `L + 1`, so
the round-trip `Priority` after `SetPriority(L)` returns `L + 1`, never
`L`. -/
theorem C2_priority_off_by_one : ∀ L : Fin 8,
    ((NewLogger LOG_ERR).SetPriority L.val).Priority = L.val + 1
    ∧ ((NewLogger LOG_ERR).SetPriority L.val).Priority ≠ L.val := by
  decide

/-- Claim C3: `LOG_UPTO(L)` equals `(1 <<< (L+1)) - 1`, has exactly bits
`0..L` set, and `LOG_UPTO(7) = 0xFF`; `LOG_MASK(L)` has exactly the one
bit at position `L`. -/
theorem C3_mask_shapes : ∀ L : Fin 8,
    LOG_UPTO L.val = (1 <<< (L.val + 1)) - 1
    ∧ (∀ i : Nat, (LOG_UPTO L.val).testBit i = decide (i ≤ L.val))
    ∧ LOG_UPTO 7 = 0xFF
    ∧ (∀ i : Nat, (LOG_MASK L.val).testBit i = decide (i = L.val)) := by
  intro L
  refine ⟨rfl, ?_, by decide, ?_⟩
  · intro i
    have h1 : LOG_UPTO L.val = 2 ^ (L.val + 1) - 1 := by
      show (1 <<< (L.val + 1)) - 1 = _
      rw [Nat.one_shiftLeft]
    rw [h1, Nat.testBit_two_pow_sub_one]
    simp [Nat.lt_succ_iff]
  · intro i
    have h2 : LOG_MASK L.val = 2 ^ L.val := by
      show 1 <<< L.val = _
      rw [Nat.one_shiftLeft]
    rw [h2, Nat.testBit_two_pow]
    by_cases h : L.val = i
    · simp [h]
    · simp [h, Ne.symm h]

/-- Claim C4: if the lowercased `GOLOGLEVEL` value equals a name in the
`Levels` table, the singleton's initial threshold is that level (in
particular any-case `"DEBUG"` yields level 7 and all eight severities
emit); when unset (`""`) or unmatched, the threshold is `LOG_ERR = 3`,
so exactly severities 0..3 emit. -/
theorem C4_env_init :
    (∀ s : String, ∀ kv ∈ Levels, strToLower s = kv.2 →
      (stdAfterInit s).upto = LOG_UPTO kv.1)
    ∧ (∀ s : String, (∀ kv ∈ Levels, strToLower s ≠ kv.2) →
      (stdAfterInit s).upto = LOG_UPTO LOG_ERR)
    ∧ (∀ sev : Fin 8, ∀ format args,
      (((stdAfterInit ("DEBUG")).emit sev format args).isSome = true))
    ∧ (∀ sev : Fin 8, ∀ format args,
      (((stdAfterInit ("bogus")).emit sev format args).isSome = true ↔ sev.val ≤ 3))
    ∧ (∀ sev : Fin 8, ∀ format args,
      (((stdAfterInit ("")).emit sev format args).isSome = true ↔ sev.val ≤ 3)) := by
  refine ⟨?_, ?_, ?_, ?_, ?_⟩
  · intro s kv hkv h
    fin_cases hkv <;> (simp only [stdAfterInit, envMatch]; rw [h]; decide)
  · intro s hall
    have hnone : envMatch s = none := by
      simp only [envMatch]
      rw [List.find?_eq_none]
      intro x hx
      simpa using hall x hx
    simp only [stdAfterInit, hnone]
    rfl
  · intro sev format args
    exact (emit_isSome_iff _ 7 (by decide) sev format args).mpr (by omega)
  · intro sev format args
    exact emit_isSome_iff _ 3 (by decide) sev format args
  · intro sev format args
    exact emit_isSome_iff _ 3 (by decide) sev format args

/-- Concrete instances of C4: `"DEBUG"` resolves to threshold 7,
`"bogus"` to the default `LOG_ERR`. -/
theorem C4_witness :
    (stdAfterInit ("DEBUG")).upto = LOG_UPTO 7
    ∧ (stdAfterInit ("bogus")).upto = LOG_UPTO LOG_ERR :=
  ⟨C4_env_init.1 ("DEBUG") (LOG_DEBUG, "debug") (by decide) (by decide),
   C4_env_init.2.1 ("bogus") (by decide)⟩

/-- Claim C5: `Fatal` and `Panic` render and write their message for
every mask value — they never read `upto`, including after
`SetPriority(0)` — at instance and package level alike. -/
theorem C5_fatal_panic_unmasked (l : Logger) (format : String)
    (args : List String) :
    ((l.SetPriority 0).Fatal format args =
       [Event.write (("[fatal] ") ++ sprintf format args), Event.exitProc 1])
    ∧ ((l.SetPriority 0).Panic format args =
       [Event.write (("[panic] ") ++ sprintf format args),
        Event.raiseErr (("[panic] ") ++ sprintf format args)])
    ∧ l.Fatal format args = (l.SetPriority 0).Fatal format args
    ∧ l.Panic format args = (l.SetPriority 0).Panic format args
    ∧ Fatal format args = l.Fatal format args
    ∧ Panic format args = l.Panic format args := by
  have hf : sprintf (("[fatal] ") ++ format) args
      = ("[fatal] ") ++ sprintf format args :=
    sprintf_append _ format args (by decide)
  have hp : sprintf (("[panic] ") ++ format) args
      = ("[panic] ") ++ sprintf format args :=
    sprintf_append _ format args (by decide)
  refine ⟨?_, ?_, rfl, rfl, rfl, rfl⟩
  · show [Event.write (sprintf (("[fatal] ") ++ format) args), Event.exitProc 1] = _
    rw [hf]
  · show [Event.write (sprintf (("[panic] ") ++ format) args),
          Event.raiseErr (sprintf (("[panic] ") ++ format) args)] = _
    rw [hp]

/-- Claim C6: `Panic` first writes the rendered line — the `[panic] `
tag followed by the formatted user message — and then raises, carrying
exactly that line as payload; the write event precedes the raise event. -/
theorem C6_panic_order (l : Logger) (format : String) (args : List String) :
    l.Panic format args =
      [Event.write (("[panic] ") ++ sprintf format args),
       Event.raiseErr (("[panic] ") ++ sprintf format args)]
    ∧ Panic format args = l.Panic format args := by
  have hp : sprintf (("[panic] ") ++ format) args
      = ("[panic] ") ++ sprintf format args :=
    sprintf_append _ format args (by decide)
  refine ⟨?_, rfl⟩
  show [Event.write (sprintf (("[panic] ") ++ format) args),
        Event.raiseErr (sprintf (("[panic] ") ++ format) args)] = _
  rw [hp]

/-- Claim C7: every line a filtered emit call hands to the sink has the
shape `[<levelname>] <formatted user message>`, with the canonical
lowercase name from the `Levels` table and positional substitution of
the arguments into the caller's format string. -/
theorem C7_line_shape (l : Logger) (sev : Fin 8) (format : String)
    (args : List String) (line : String)
    (h : l.emit sev format args = some line) :
    line = ("[") ++ levelName sev.val ++ ("] ") ++ sprintf format args := by
  rw [Logger.emit_eq] at h
  by_cases hc : l.upto &&& LOG_MASK sev.val ≠ 0
  · rw [if_pos hc] at h
    rw [← Option.some.inj h]
    exact Logger.printf_shape l format sev.val args (levelName_no_verb sev)
  · rw [if_neg hc] at h
    exact absurd h (by simp)

/-- Concrete instance of C7: a passing `Error`-level call at threshold 7
produces the line `[err] a`. -/
theorem C7_witness :
    ("[err] a" : String) = ("[") ++ levelName 3 ++ ("] ") ++ sprintf ("a") [] :=
  C7_line_shape (NewLogger 7) 3 ("a") [] ("[err] a") (by decide)

/-- Claim C8: every logger state reachable through `NewLogger`,
`SetPriority` (= `SetLevel`) chains, or singleton environment
initialization holds the mask `(1 <<< (T+1)) - 1` for its configured
threshold `T` — a contiguous, downward-closed run of low-order one
bits, never a gapped bit set. -/
theorem C8_mask_contiguous (l : Logger) (T : Nat) (h : Configured l T) :
    l.upto = (1 <<< (T + 1)) - 1
    ∧ (∀ i j : Nat, i ≤ j → l.upto.testBit j = true → l.upto.testBit i = true) := by
  have hm : l.upto = (1 <<< (T + 1)) - 1 := by
    induction h with
    | new p => rfl
    | set p _ _ => rfl
    | env golog =>
      simp only [stdAfterInit, initThreshold]
      cases envMatch golog with
      | some kv => rfl
      | none => rfl
  refine ⟨hm, ?_⟩
  intro i j hij hj
  have hpow : ((1 <<< (T + 1)) - 1 : Nat) = 2 ^ (T + 1) - 1 := by
    rw [Nat.one_shiftLeft]
  rw [hm, hpow, Nat.testBit_two_pow_sub_one] at hj ⊢
  simp only [decide_eq_true_eq] at hj ⊢
  omega

/-- Concrete instance of C8: a fresh logger at threshold 5 holds the
mask `0b111111`. -/
theorem C8_witness : (NewLogger 5).upto = (1 <<< (5 + 1 : Nat)) - 1 :=
  (C8_mask_contiguous (NewLogger 5) 5 (Configured.new 5)).1

/-- Claim C9 is refuted by the code: `SetOutput` rebuilds the singleton
with `NewLogger(out, Prefix(), Flags(), Priority())`, and `Priority()`
returns one more than the configured threshold, so after
`SetPriority(3)` followed by `SetOutput` the mask is `LOG_UPTO(4)`: a
`Warning` (severity 4) call, suppressed before `SetOutput`, is emitted
after it. -/
theorem C9_setoutput_shifts_threshold :
    ((NewLogger LOG_ERR).SetPriority 3).upto = LOG_UPTO 3
    ∧ ((NewLogger LOG_ERR).SetPriority 3).Warning ("x") [] = none
    ∧ (SetOutput ((NewLogger LOG_ERR).SetPriority 3)).upto = LOG_UPTO 4
    ∧ ((SetOutput ((NewLogger LOG_ERR).SetPriority 3)).Warning ("x") []).isSome = true := by
  decide

/-- Claim C10 as stated is false: `LOG_FAC` recovers only the low four
bits of the facility code because `LOG_MAKEPRI` shifts the already
shifted facility constant a second time; `local0` packs and unpacks to
`kern`. -/
theorem C10_counterexample :
    LOG_FAC (LOG_MAKEPRI LOG_LOCAL0 LOG_EMERG) = LOG_KERN
    ∧ LOG_FAC (LOG_MAKEPRI LOG_LOCAL0 LOG_EMERG) ≠ LOG_LOCAL0 := by
  decide

/-- Claim C10, amended: for every facility in the table and level in
0..7, `LOG_PRI` recovers the level; `LOG_FAC` recovers
`((F >>> 3) % 16) <<< 3`, which equals `F` exactly when the facility
code `F >>> 3` is below 16 (`kern` through `ftp`), and not for
`local0..local7` or `mark`. -/
theorem C10_pack_unpack : ∀ kv ∈ Facilities, ∀ L : Fin 8,
    LOG_PRI (LOG_MAKEPRI kv.1 L.val) = L.val
    ∧ LOG_FAC (LOG_MAKEPRI kv.1 L.val) = ((kv.1 >>> 3) % 16) <<< 3
    ∧ (kv.1 >>> 3 < 16 → LOG_FAC (LOG_MAKEPRI kv.1 L.val) = kv.1) := by
  decide

/-- Concrete instance of amended C10: `user` at level `err` packs and
unpacks to itself on both components. -/
theorem C10_witness :
    LOG_PRI (LOG_MAKEPRI LOG_USER LOG_ERR) = LOG_ERR
    ∧ LOG_FAC (LOG_MAKEPRI LOG_USER LOG_ERR) = LOG_USER :=
  ⟨(C10_pack_unpack (LOG_USER, "user") (by decide) 3).1,
   (C10_pack_unpack (LOG_USER, "user") (by decide) 3).2.2 (by decide)⟩

end LoggerGo
